import Mathlib

/-!
# Verification of the connectivity-monitor and chat-send logic of clearquote-FE

Shallow embedding of the status-polling / retry / manual-refresh client state
machine of `src/app/page.tsx` and of the chat page's send guard
(`handleSendMessage`).  Timers are modelled explicitly: every armed interval
timer and every pending retry timeout is carried in the state as a
(timer-id, data) entry, mirroring the JavaScript timer handles held in
`intervalRef` / `retryTimeoutRef`.  Each completed HTTP fetch is applied to the
state as one atomic event, matching the single-threaded event model.
-/

namespace ClearQuote

/-- `validation` object of the status payload (page.tsx lines 423-426). -/
structure Validation where
  is_valid : Bool
  missing : List String
deriving DecidableEq, Repr

/-- `ConfigStatus` payload received from `/api/config/status`
(page.tsx lines 419-427). -/
structure ConfigStatus where
  gemini_api_key_set : Bool
  db_url_set : Bool
  gemini_model : String
  validation : Validation
deriving DecidableEq, Repr

/-- `const POLL_INTERVAL = 5000` (page.tsx line 435). -/
def POLL_INTERVAL : Nat := 5000

/-- `const MAX_RETRIES = 3` (page.tsx line 436). -/
def MAX_RETRIES : Nat := 3

/-- `const RETRY_DELAY = 2000` (page.tsx line 437). -/
def RETRY_DELAY : Nat := 2000

/-- The React state hooks of `Dashboard` (page.tsx lines 441-450) together
with an explicit model of the JavaScript timer world: `liveIntervals` holds
the ids of armed `setInterval` timers, `pendingRetries` holds
(id, delay-in-ms) for every armed retry `setTimeout`, and `nextTimerId` is a
fresh-id counter.  `intervalRef` / `retryTimeoutRef` model the two `useRef`
handles. -/
structure DashboardState where
  configStatus : Option ConfigStatus
  isLoading : Bool
  lastUpdate : Option Nat
  isRefreshing : Bool
  retryCount : Nat
  error : Option String
  intervalRef : Option Nat
  retryTimeoutRef : Option Nat
  liveIntervals : List Nat
  pendingRetries : List (Nat × Nat)
  nextTimerId : Nat
deriving DecidableEq, Repr

/-- Outcome of one HTTP round-trip to the status endpoint: `ok` is a 2xx
response whose body parsed as JSON; `fail` collapses transport errors,
non-2xx statuses and parse errors into the single failure branch that the
`catch` block of `fetchConfigStatus` handles (page.tsx lines 465-469, 479). -/
inductive FetchResult where
  | ok (data : ConfigStatus) (now : Nat)
  | fail (msg : String)
deriving DecidableEq, Repr

/-- Entry into `fetchConfigStatus` (page.tsx lines 452-455): before the HTTP
request is issued, a manual refresh sets `isRefreshing = true`; an automatic
fetch changes nothing. -/
def fetchStart (isManualRefresh : Bool) (s : DashboardState) : DashboardState :=
  if isManualRefresh then { s with isRefreshing := true } else s

/-- `setTimeout(..., delay)` arming the retry (page.tsx lines 492-495):
a fresh timer id is allocated, the pending retry is recorded, and
`retryTimeoutRef.current` is overwritten (the code never clears a previously
stored timeout here). -/
def scheduleRetry (delay : Nat) (s : DashboardState) : DashboardState :=
  { s with pendingRetries := s.pendingRetries ++ [(s.nextTimerId, delay)],
           retryTimeoutRef := some s.nextTimerId,
           nextTimerId := s.nextTimerId + 1 }

/-- Completion of one fetch attempt, transcribing the body of
`fetchConfigStatus` (page.tsx lines 457-500).  On success: store the payload,
stamp the time, clear loading/error, reset the retry count, and end a manual
refresh.  On failure: record the error message, end a manual refresh, then
either arm one retry timeout at `RETRY_DELAY * 2 ^ retryCount` (when
`retryCount < MAX_RETRIES`) or, with the budget exhausted, stop loading and
clear the stored status. -/
def fetchComplete (isManualRefresh : Bool) (r : FetchResult)
    (s : DashboardState) : DashboardState :=
  match r with
  | .ok data now =>
      let s := { s with configStatus := some data,
                        lastUpdate := some now,
                        isLoading := false,
                        error := none,
                        retryCount := 0 }
      if isManualRefresh then { s with isRefreshing := false } else s
  | .fail msg =>
      let s := { s with error := some msg }
      let s := if isManualRefresh then { s with isRefreshing := false } else s
      if s.retryCount < MAX_RETRIES then
        scheduleRetry (RETRY_DELAY * 2 ^ s.retryCount) s
      else
        { s with isLoading := false, configStatus := none }

/-- Firing of the retry timeout with id `id` (the callback at page.tsx lines
492-495): if that timer is still armed it is consumed, `retryCount` is
incremented by one, and a new automatic fetch begins.  A timer that was
cancelled never fires. -/
def retryTimerFire (id : Nat) (s : DashboardState) : DashboardState :=
  if s.pendingRetries.any (fun p => p.1 == id) then
    fetchStart false
      { s with pendingRetries := s.pendingRetries.filter (fun p => p.1 != id),
               retryCount := s.retryCount + 1 }
  else s

/-- `handleManualRefresh` (page.tsx lines 503-506): reset `retryCount` to 0,
then begin a fetch with `isManualRefresh = true`.  The pending retry timeout
is not touched. -/
def handleManualRefresh (s : DashboardState) : DashboardState :=
  fetchStart true { s with retryCount := 0 }

/-- `startPolling` (page.tsx lines 513-520): clear any interval stored in
`intervalRef.current`, then arm a fresh repeating interval and store its
handle. -/
def startPolling (s : DashboardState) : DashboardState :=
  let s :=
    match s.intervalRef with
    | some id => { s with liveIntervals := s.liveIntervals.filter (fun i => i != id) }
    | none => s
  { s with liveIntervals := s.liveIntervals ++ [s.nextTimerId],
           intervalRef := some s.nextTimerId,
           nextTimerId := s.nextTimerId + 1 }

/-- `handleVisibilityChange` (page.tsx lines 522-535).  When the document
becomes hidden: clear the interval stored in `intervalRef` (and null the ref);
nothing else — the retry timeout is not cancelled.  When it becomes visible:
begin an immediate automatic fetch and re-arm polling via `startPolling`. -/
def handleVisibilityChange (hidden : Bool) (s : DashboardState) : DashboardState :=
  if hidden then
    match s.intervalRef with
    | some id =>
        { s with liveIntervals := s.liveIntervals.filter (fun i => i != id),
                 intervalRef := none }
    | none => s
  else
    startPolling (fetchStart false s)

/-- The unmount cleanup of the effect (page.tsx lines 540-548): clear the
interval stored in `intervalRef` and the timeout stored in
`retryTimeoutRef`. -/
def cleanup (s : DashboardState) : DashboardState :=
  let s :=
    match s.intervalRef with
    | some id => { s with liveIntervals := s.liveIntervals.filter (fun i => i != id) }
    | none => s
  match s.retryTimeoutRef with
  | some id => { s with pendingRetries := s.pendingRetries.filter (fun p => p.1 != id) }
  | none => s

/-- `getStatusColor` (page.tsx lines 588-594): error wins, then absent
status, then valid, then `gemini_api_key_set || db_url_set`, else red. -/
def getStatusColor (s : DashboardState) : String :=
  if s.error.isSome then "text-red-400"
  else
    match s.configStatus with
    | none => "text-white/30"
    | some cs =>
        if cs.validation.is_valid then "text-green-400"
        else if cs.gemini_api_key_set || cs.db_url_set then "text-yellow-400"
        else "text-red-400"

/-- The three icons `getStatusIcon` can return (page.tsx lines 596-601). -/
inductive StatusIcon where
  | wifi
  | wifiOff
  | alertCircle
deriving DecidableEq, Repr

/-- `getStatusIcon` (page.tsx lines 596-601). -/
def getStatusIcon (s : DashboardState) : StatusIcon :=
  if s.isLoading || s.isRefreshing then .wifi
  else if s.error.isSome then .wifiOff
  else
    match s.configStatus with
    | none => .wifiOff
    | some cs => if cs.validation.is_valid then .wifi else .alertCircle

/-! ## Chat page (`handleSendMessage`) -/

/-- `sender: 'user' | 'assistant'` of a chat message. -/
inductive Sender where
  | user
  | assistant
deriving DecidableEq, Repr

/-- Optional `metadata` of a chat message (ChatPage lines 15-19). -/
structure ChatMetadata where
  rowCount : Option Nat
  generatedSql : Option String
  validatedSql : Option String
deriving DecidableEq, Repr

/-- `ChatMessage` (ChatPage lines 7-20). -/
structure ChatMessage where
  id : String
  text : String
  sender : Sender
  timestamp : Nat
  isStreaming : Option Bool
  hasTable : Option Bool
  error : Option String
  metadata : Option ChatMetadata
deriving DecidableEq, Repr

/-- JavaScript's `String.prototype.trim`: remove leading and trailing
whitespace. -/
def jsTrim (s : String) : String :=
  ⟨((s.data.dropWhile Char.isWhitespace).reverse.dropWhile
      Char.isWhitespace).reverse⟩

/-- The chat page's state hooks relevant to sending (ChatPage lines 33-42). -/
structure ChatState where
  messages : List ChatMessage
  input : String
  isLoading : Bool
deriving DecidableEq, Repr

/-- The synchronous prefix of `handleSendMessage` (ChatPage lines 151-164),
up to the point where the HTTP POST to `/api/query` is issued.  Returns the
new state together with the question sent over HTTP (`none` when the guard
`if (!input.trim() || isLoading) return` fires and no request is issued). -/
def handleSendMessage (now : Nat) (s : ChatState) : ChatState × Option String :=
  if jsTrim s.input = "" || s.isLoading then (s, none)
  else
    let userMessage : ChatMessage :=
      { id := toString now, text := s.input, sender := .user, timestamp := now,
        isStreaming := none, hasTable := none, error := none, metadata := none }
    ({ s with messages := s.messages ++ [userMessage],
              input := "",
              isLoading := true },
     some s.input)

/-! ## Concrete example states -/

/-- A payload the endpoint reports as fully valid. -/
def healthyStatus : ConfigStatus :=
  { gemini_api_key_set := true, db_url_set := true, gemini_model := "gemini-1.5",
    validation := { is_valid := true, missing := [] } }

/-- A dashboard that has seen one successful fetch and has its periodic
interval (id 0) armed. -/
def exBase : DashboardState :=
  { configStatus := some healthyStatus, isLoading := false, lastUpdate := some 1000,
    isRefreshing := false, retryCount := 0, error := none,
    intervalRef := some 0, retryTimeoutRef := none,
    liveIntervals := [0], pendingRetries := [], nextTimerId := 1 }

/-- A dashboard whose last automatic fetch failed, leaving a retry timeout
(id 1, 2000 ms) pending. -/
def retryPendingState : DashboardState :=
  { configStatus := some healthyStatus, isLoading := false, lastUpdate := some 1000,
    isRefreshing := false, retryCount := 0, error := some "HTTP error! status: 500",
    intervalRef := some 0, retryTimeoutRef := some 1,
    liveIntervals := [0], pendingRetries := [(1, 2000)], nextTimerId := 2 }

/-! ## Spec-side derived-status function (for the refinement claim) -/

/-- Number of the two credential flags that are set. -/
def flagsSetCount (cs : ConfigStatus) : Nat :=
  (if cs.gemini_api_key_set then 1 else 0) + (if cs.db_url_set then 1 else 0)

/-- Modelled from the spec: the five-way derived-status branch of §4.1,
amended so that the partially-configured case requires AT LEAST one of the
two flags set (the source's `||`), not exactly one as the spec's wording
says. -/
def specStatusColor (s : DashboardState) : String :=
  match s.error, s.configStatus with
  | some _, _ => "text-red-400"
  | none, none => "text-white/30"
  | none, some cs =>
      if cs.validation.is_valid then "text-green-400"
      else if 1 ≤ flagsSetCount cs then "text-yellow-400"
      else "text-red-400"

/-! ## Theorems -/

/-- C1: a failed fetch with `retryCount < MAX_RETRIES` arms exactly one new
retry timeout, with delay `RETRY_DELAY * 2 ^ retryCount`, and when that
timeout fires `retryCount` has increased by exactly one. -/
theorem retry_scheduled_with_backoff (m : Bool) (msg : String)
    (s : DashboardState) (h : s.retryCount < MAX_RETRIES) :
    (fetchComplete m (.fail msg) s).pendingRetries
        = s.pendingRetries ++ [(s.nextTimerId, RETRY_DELAY * 2 ^ s.retryCount)] ∧
    (retryTimerFire s.nextTimerId (fetchComplete m (.fail msg) s)).retryCount
        = s.retryCount + 1 := by
  cases m <;>
    simp [fetchComplete, scheduleRetry, retryTimerFire, fetchStart, h]

/-- Witness for `retry_scheduled_with_backoff` at a concrete state. -/
theorem retry_scheduled_with_backoff_witness :
    exBase.retryCount < MAX_RETRIES ∧
    ((fetchComplete false (.fail "boom") exBase).pendingRetries
        = exBase.pendingRetries
            ++ [(exBase.nextTimerId, RETRY_DELAY * 2 ^ exBase.retryCount)] ∧
     (retryTimerFire exBase.nextTimerId
        (fetchComplete false (.fail "boom") exBase)).retryCount
        = exBase.retryCount + 1) :=
  ⟨by decide, retry_scheduled_with_backoff false "boom" exBase (by decide)⟩

/-- C4: a successful fetch stores the parsed payload, stamps the update
time, clears the error, resets the retry count, ends loading, and — when it
was a manual refresh — ends refreshing. -/
theorem success_resets_state (m : Bool) (d : ConfigStatus) (t : Nat)
    (s : DashboardState) :
    ((fetchComplete m (.ok d t) (fetchStart m s)).configStatus = some d) ∧
    ((fetchComplete m (.ok d t) (fetchStart m s)).lastUpdate = some t) ∧
    ((fetchComplete m (.ok d t) (fetchStart m s)).error = none) ∧
    ((fetchComplete m (.ok d t) (fetchStart m s)).retryCount = 0) ∧
    ((fetchComplete m (.ok d t) (fetchStart m s)).isLoading = false) ∧
    ((fetchComplete true (.ok d t) (fetchStart true s)).isRefreshing = false) := by
  cases m <;> simp [fetchComplete, fetchStart]

/-- C7: a manual refresh resets `retryCount` to 0 and raises `isRefreshing`
before its fetch, and `isRefreshing` is lowered again when that fetch
completes, whether it succeeds or fails. -/
theorem manual_refresh_fresh_budget (s : DashboardState) (r : FetchResult) :
    ((handleManualRefresh s).retryCount = 0) ∧
    ((handleManualRefresh s).isRefreshing = true) ∧
    ((fetchComplete true r (handleManualRefresh s)).isRefreshing = false) := by
  cases r with
  | ok d t => simp [handleManualRefresh, fetchStart, fetchComplete]
  | fail msg =>
      simp only [handleManualRefresh, fetchStart, fetchComplete, scheduleRetry,
        if_true, MAX_RETRIES]
      simp

/-- C2 counterexample: with the retry timeout (id 1) pending, the
visibility-hidden handler leaves it armed, and when it later fires a further
fetch begins and `retryCount` is mutated — contrary to the claim that going
hidden cancels the pending retry timer. -/
theorem hidden_keeps_retry_pending_cex :
    ((handleVisibilityChange true retryPendingState).pendingRetries = [(1, 2000)]) ∧
    ((handleVisibilityChange true retryPendingState).retryTimeoutRef = some 1) ∧
    ((retryTimerFire 1 (handleVisibilityChange true retryPendingState)).retryCount
        = retryPendingState.retryCount + 1) := by
  decide

/-- C2 amended: the visibility-hidden handler disarms only the periodic
interval (clearing `intervalRef`) and preserves the displayed data; the
pending retry timeout is NOT cancelled there — only the unmount cleanup
removes the timeout stored in `retryTimeoutRef`. -/
theorem hidden_clears_only_interval (s : DashboardState) :
    ((handleVisibilityChange true s).intervalRef = none) ∧
    ((handleVisibilityChange true s).liveIntervals
        = s.liveIntervals.filter (fun i => some i != s.intervalRef)) ∧
    ((handleVisibilityChange true s).pendingRetries = s.pendingRetries) ∧
    ((handleVisibilityChange true s).retryTimeoutRef = s.retryTimeoutRef) ∧
    ((handleVisibilityChange true s).configStatus = s.configStatus) ∧
    ((handleVisibilityChange true s).retryCount = s.retryCount) ∧
    ((cleanup s).pendingRetries
        = s.pendingRetries.filter (fun p => some p.1 != s.retryTimeoutRef)) := by
  rcases hi : s.intervalRef with _ | i <;>
    rcases hr : s.retryTimeoutRef with _ | j <;>
    simp [handleVisibilityChange, cleanup, hi, hr, List.filter_eq_self, bne]

/-- C5 counterexample: invoking the manual refresh while the retry timeout
(id 1) is pending does not cancel it: the timeout stays armed and, when it
fires after the manual attempt, it bumps `retryCount` away from the freshly
reset 0 — contrary to the claim that a manual refresh prevents the pending
retry from firing. -/
theorem manual_refresh_keeps_retry_pending_cex :
    ((handleManualRefresh retryPendingState).pendingRetries = [(1, 2000)]) ∧
    ((handleManualRefresh retryPendingState).retryCount = 0) ∧
    ((retryTimerFire 1 (handleManualRefresh retryPendingState)).retryCount = 1) := by
  decide

/-- C5 amended: a manual refresh leaves any pending automatic retry timeout
armed (it only resets `retryCount` to 0 and raises `isRefreshing`); the
pending retry still fires when its delay elapses, incrementing `retryCount`
and starting another automatic fetch. -/
theorem manual_refresh_leaves_retry_pending (s : DashboardState) :
    ((handleManualRefresh s).pendingRetries = s.pendingRetries) ∧
    ((handleManualRefresh s).retryTimeoutRef = s.retryTimeoutRef) ∧
    ((handleManualRefresh s).retryCount = 0) ∧
    ((handleManualRefresh s).isRefreshing = true) := by
  simp [handleManualRefresh, fetchStart]

/-- The state after three consecutive failed fetch attempts starting from
`exBase`: the initial failure plus the two retries with timer ids 1 and 2. -/
def threeFailuresState : DashboardState :=
  fetchComplete false (.fail "e3")
    (retryTimerFire 2 (fetchComplete false (.fail "e2")
      (retryTimerFire 1 (fetchComplete false (.fail "e1") exBase))))

/-- C3 counterexample: after `MAX_RETRIES = 3` consecutive failed fetch
attempts the stored status is still present, a further retry timeout is
armed, and `retryCount` is 2, not `MAX_RETRIES` — exhaustion only happens on
the (maxRetries+1)-th consecutive failure. -/
theorem three_failures_not_exhausted_cex :
    (threeFailuresState.configStatus ≠ none) ∧
    (threeFailuresState.pendingRetries ≠ []) ∧
    (threeFailuresState.retryCount ≠ MAX_RETRIES) := by
  decide

/-- C3 amended: after `MAX_RETRIES + 1` consecutive failed fetch attempts
(the initial attempt plus `MAX_RETRIES` fired retries) the stored status is
cleared, `isLoading` is false, no retry timeout remains armed, and
`retryCount` equals `MAX_RETRIES`. -/
theorem four_failures_exhaust (s : DashboardState) (e1 e2 e3 e4 : String)
    (h0 : s.retryCount = 0) (hp : s.pendingRetries = []) :
    ((fetchComplete false (.fail e4)
        (retryTimerFire (s.nextTimerId + 2) (fetchComplete false (.fail e3)
          (retryTimerFire (s.nextTimerId + 1) (fetchComplete false (.fail e2)
            (retryTimerFire s.nextTimerId
              (fetchComplete false (.fail e1) s))))))).configStatus = none) ∧
    ((fetchComplete false (.fail e4)
        (retryTimerFire (s.nextTimerId + 2) (fetchComplete false (.fail e3)
          (retryTimerFire (s.nextTimerId + 1) (fetchComplete false (.fail e2)
            (retryTimerFire s.nextTimerId
              (fetchComplete false (.fail e1) s))))))).isLoading = false) ∧
    ((fetchComplete false (.fail e4)
        (retryTimerFire (s.nextTimerId + 2) (fetchComplete false (.fail e3)
          (retryTimerFire (s.nextTimerId + 1) (fetchComplete false (.fail e2)
            (retryTimerFire s.nextTimerId
              (fetchComplete false (.fail e1) s))))))).pendingRetries = []) ∧
    ((fetchComplete false (.fail e4)
        (retryTimerFire (s.nextTimerId + 2) (fetchComplete false (.fail e3)
          (retryTimerFire (s.nextTimerId + 1) (fetchComplete false (.fail e2)
            (retryTimerFire s.nextTimerId
              (fetchComplete false (.fail e1) s))))))).retryCount = MAX_RETRIES) := by
  simp [fetchComplete, scheduleRetry, retryTimerFire, fetchStart, h0, hp,
    MAX_RETRIES]

/-- Witness for `four_failures_exhaust` at `exBase` (timer ids 1, 2, 3). -/
theorem four_failures_exhaust_witness :
    (exBase.retryCount = 0) ∧ (exBase.pendingRetries = []) ∧
    (((fetchComplete false (.fail "e4")
        (retryTimerFire (exBase.nextTimerId + 2) (fetchComplete false (.fail "e3")
          (retryTimerFire (exBase.nextTimerId + 1) (fetchComplete false (.fail "e2")
            (retryTimerFire exBase.nextTimerId
              (fetchComplete false (.fail "e1") exBase))))))).configStatus = none) ∧
     ((fetchComplete false (.fail "e4")
        (retryTimerFire (exBase.nextTimerId + 2) (fetchComplete false (.fail "e3")
          (retryTimerFire (exBase.nextTimerId + 1) (fetchComplete false (.fail "e2")
            (retryTimerFire exBase.nextTimerId
              (fetchComplete false (.fail "e1") exBase))))))).isLoading = false) ∧
     ((fetchComplete false (.fail "e4")
        (retryTimerFire (exBase.nextTimerId + 2) (fetchComplete false (.fail "e3")
          (retryTimerFire (exBase.nextTimerId + 1) (fetchComplete false (.fail "e2")
            (retryTimerFire exBase.nextTimerId
              (fetchComplete false (.fail "e1") exBase))))))).pendingRetries = []) ∧
     ((fetchComplete false (.fail "e4")
        (retryTimerFire (exBase.nextTimerId + 2) (fetchComplete false (.fail "e3")
          (retryTimerFire (exBase.nextTimerId + 1) (fetchComplete false (.fail "e2")
            (retryTimerFire exBase.nextTimerId
              (fetchComplete false (.fail "e1") exBase))))))).retryCount
        = MAX_RETRIES)) :=
  ⟨by decide, by decide, four_failures_exhaust exBase "e1" "e2" "e3" "e4" rfl rfl⟩

/-- A payload with both credential flags set but `is_valid` false (the
endpoint invariant of §3 violated, which the UI must still handle). -/
def bothSetInvalidStatus : ConfigStatus :=
  { gemini_api_key_set := true, db_url_set := true, gemini_model := "gemini-1.5",
    validation := { is_valid := false, missing := [] } }

/-- A dashboard holding `bothSetInvalidStatus` with no error. -/
def bothSetInvalidState : DashboardState :=
  { exBase with configStatus := some bothSetInvalidStatus }

/-- Modelled from the amended claim: the icon branch as the source has it —
whenever a fetch is in progress (`isLoading` or `isRefreshing`) the Wifi
icon is shown regardless of `lastError`; only otherwise does it fall
through to error-or-absent (WifiOff), valid (Wifi), else AlertCircle. -/
def specStatusIcon (s : DashboardState) : StatusIcon :=
  if s.isLoading = true ∨ s.isRefreshing = true then .wifi
  else
    match s.error, s.configStatus with
    | some _, _ => .wifiOff
    | none, none => .wifiOff
    | none, some cs => if cs.validation.is_valid then .wifi else .alertCircle

/-- A dashboard mid-fetch (`isLoading` true) with a failure already
recorded. -/
def loadingErrorState : DashboardState :=
  { exBase with isLoading := true, error := some "HTTP error! status: 500" }

/-- The same dashboard as `loadingErrorState` except not loading: it agrees
with it on every field the five-way branch reads (`lastError`, `lastStatus`,
`validation`, the flags). -/
def idleErrorState : DashboardState :=
  { exBase with error := some "HTTP error! status: 500" }

/-- C6 counterexample.  Colour: with no error, both flags set and
`is_valid` false, `getStatusColor` returns the partially-configured yellow,
not the unconfigured/error red the claim requires for that combination.
Icon: `getStatusIcon` is not a five-way branch over
`lastError`/`lastStatus`/`validation`/flags at all — two states agreeing
on all those fields but differing in `isLoading` get different icons, and
with `lastError` present the loading state still shows the healthy Wifi
icon rather than a degraded/error representation. -/
theorem derived_status_presentation_cex :
    (getStatusColor bothSetInvalidState = "text-yellow-400") ∧
    (getStatusColor bothSetInvalidState ≠ "text-red-400") ∧
    (loadingErrorState.error = idleErrorState.error) ∧
    (loadingErrorState.configStatus = idleErrorState.configStatus) ∧
    (getStatusIcon loadingErrorState = StatusIcon.wifi) ∧
    (getStatusIcon idleErrorState = StatusIcon.wifiOff) := by
  decide

/-- C6 amended: the derived presentation is two pure functions of
MonitorState.  The colour follows the five-way branch of §4.1 with the
partially-configured case taken when AT LEAST one of the two flags is set
(the source's inclusive `||`), not exactly one.  The icon does not follow
the five-way branch: it shows the Wifi icon whenever `isLoading` or
`isRefreshing` is true — even with `lastError` present — and only
otherwise branches on error-or-absent status (WifiOff), validity (Wifi),
else AlertCircle. -/
theorem status_presentation_branches (s : DashboardState) :
    (getStatusColor s = specStatusColor s) ∧
    (getStatusIcon s = specStatusIcon s) := by
  constructor
  · rcases he : s.error with _ | e <;> rcases hc : s.configStatus with _ | cs <;>
      simp [getStatusColor, specStatusColor, flagsSetCount, he, hc]
    obtain ⟨a, b, mdl, v⟩ := cs
    cases a <;> cases b <;> simp
  · rcases he : s.error with _ | e <;> rcases hc : s.configStatus with _ | cs <;>
      cases hl : s.isLoading <;> cases hr : s.isRefreshing <;>
      simp [getStatusIcon, specStatusIcon, he, hc, hl, hr]

/-- C8 counterexample: from a healthy state (green) with `retryCount <
MAX_RETRIES`, a single failed fetch flips both the colour (to red) and the
icon (to the disconnected one) — the visible representation is not identical
to the one derived from the last good status. -/
theorem transient_failure_visible_cex :
    (exBase.retryCount < MAX_RETRIES) ∧
    (getStatusColor exBase = "text-green-400") ∧
    (getStatusIcon exBase = StatusIcon.wifi) ∧
    (getStatusColor (fetchComplete false (.fail "HTTP error! status: 500") exBase)
        = "text-red-400") ∧
    (getStatusIcon (fetchComplete false (.fail "HTTP error! status: 500") exBase)
        = StatusIcon.wifiOff) := by
  decide

/-- C8 amended: within the retry budget a failed fetch does preserve the
stored payload and `isLoading`, but it records `lastError`, and because the
derived presentation tests `lastError` first, the visible colour immediately
becomes the error red. -/
theorem transient_failure_sets_error (s : DashboardState) (msg : String)
    (h : s.retryCount < MAX_RETRIES) :
    ((fetchComplete false (.fail msg) s).configStatus = s.configStatus) ∧
    ((fetchComplete false (.fail msg) s).isLoading = s.isLoading) ∧
    ((fetchComplete false (.fail msg) s).error = some msg) ∧
    (getStatusColor (fetchComplete false (.fail msg) s) = "text-red-400") := by
  simp [fetchComplete, scheduleRetry, fetchStart, getStatusColor, h]

/-- Witness for `transient_failure_sets_error` at a concrete state. -/
theorem transient_failure_sets_error_witness :
    (exBase.retryCount < MAX_RETRIES) ∧
    (((fetchComplete false (.fail "boom") exBase).configStatus
        = exBase.configStatus) ∧
     ((fetchComplete false (.fail "boom") exBase).isLoading = exBase.isLoading) ∧
     ((fetchComplete false (.fail "boom") exBase).error = some "boom") ∧
     (getStatusColor (fetchComplete false (.fail "boom") exBase)
        = "text-red-400")) :=
  ⟨by decide, transient_failure_sets_error exBase "boom" (by decide)⟩

/-- C9: under the invariant that the armed intervals are exactly the one
held in `intervalRef`, `startPolling` clears any pre-existing interval
before arming the fresh one, so afterwards exactly one interval (the new
id) is armed and the invariant still holds. -/
theorem start_polling_single_interval (s : DashboardState)
    (h : s.liveIntervals = s.intervalRef.toList) :
    ((startPolling s).liveIntervals = [s.nextTimerId]) ∧
    ((startPolling s).intervalRef = some s.nextTimerId) ∧
    ((startPolling s).liveIntervals = (startPolling s).intervalRef.toList) := by
  rcases hi : s.intervalRef with _ | i <;>
    rw [hi] at h <;> simp [startPolling, hi, h]

/-- Witness for `start_polling_single_interval` at a concrete state. -/
theorem start_polling_single_interval_witness :
    (exBase.liveIntervals = exBase.intervalRef.toList) ∧
    (((startPolling exBase).liveIntervals = [exBase.nextTimerId]) ∧
     ((startPolling exBase).intervalRef = some exBase.nextTimerId) ∧
     ((startPolling exBase).liveIntervals
        = (startPolling exBase).intervalRef.toList)) :=
  ⟨by decide, start_polling_single_interval exBase (by decide)⟩

/-- C10: when the input is empty or whitespace-only, or a query is already
in flight, `handleSendMessage` is a no-op: the state (message list included)
is unchanged and no HTTP request is issued. -/
theorem send_guard_no_op (now : Nat) (s : ChatState)
    (h : jsTrim s.input = "" ∨ s.isLoading = true) :
    handleSendMessage now s = (s, none) := by
  rcases h with h | h <;> simp [handleSendMessage, h]

/-- Witness for `send_guard_no_op` on a whitespace-only input. -/
theorem send_guard_no_op_witness :
    (jsTrim ({ messages := [], input := "   ", isLoading := false
        : ChatState }).input = ""
      ∨ ({ messages := [], input := "   ", isLoading := false
        : ChatState }).isLoading = true) ∧
    handleSendMessage 5 { messages := [], input := "   ", isLoading := false }
      = ({ messages := [], input := "   ", isLoading := false }, none) :=
  ⟨Or.inl (by decide),
   send_guard_no_op 5 { messages := [], input := "   ", isLoading := false }
     (Or.inl (by decide))⟩

end ClearQuote
